import Mathlib

/-!
Verification of the Hybrid-Fraud-Shield repository: decision-policy tier
banding, the ensemble inference engine contracts, and the customer-portal
card utilities.  Probabilities and feature values are modelled as rationals.
-/

namespace FraudShield

/-! ## Three-tier classification and its UI colour mappings -/

/-- The three risk tiers of the decision policy. -/
inductive Tier
  | SAFE
  | SUSPICIOUS
  | FRAUD
deriving DecidableEq, Repr

/-- `getRiskScoreColor` from
`src/frontend/customer-portal/src/lib/utils/formatters.ts` (lines 127-135):
`score < 0.3` is green (SAFE), `score < 0.7` is yellow (SUSPICIOUS),
otherwise red (FRAUD). -/
def getRiskScoreColor (score : ℚ) : String :=
  if score < 3/10 then "text-green-600"
  else if score < 7/10 then "text-yellow-600"
  else "text-red-600"

/-- The risk-bar colour of the admin-panel `TransactionsPage`
(`src/unnamed/part_010`, lines 236-243): `risk_score > 0.7` is red,
`risk_score > 0.4` is yellow, otherwise green. -/
def adminRiskBarColor (risk_score : ℚ) : String :=
  if risk_score > 7/10 then "bg-red-500"
  else if risk_score > 4/10 then "bg-yellow-500"
  else "bg-green-500"

/-- The tier denoted by the customer-portal colour mapping. -/
def portalTier (p : ℚ) : Tier :=
  if p < 3/10 then .SAFE
  else if p < 7/10 then .SUSPICIOUS
  else .FRAUD

/-- The tier denoted by the admin-panel risk-bar colour mapping. -/
def adminBarTier (p : ℚ) : Tier :=
  if p > 7/10 then .FRAUD
  else if p > 4/10 then .SUSPICIOUS
  else .SAFE

/-- The colour class the customer portal uses for each tier. -/
def portalColorOf : Tier → String
  | .SAFE => "text-green-600"
  | .SUSPICIOUS => "text-yellow-600"
  | .FRAUD => "text-red-600"

/-- The colour class the admin-panel risk bar uses for each tier. -/
def adminColorOf : Tier → String
  | .SAFE => "bg-green-500"
  | .SUSPICIOUS => "bg-yellow-500"
  | .FRAUD => "bg-red-500"

/-- `portalTier` is exactly the tier reading of `getRiskScoreColor`. -/
theorem portalTier_spec (p : ℚ) :
    getRiskScoreColor p = portalColorOf (portalTier p) := by
  unfold getRiskScoreColor portalTier
  split <;> [rfl; skip]
  split <;> rfl

/-- `adminBarTier` is exactly the tier reading of `adminRiskBarColor`. -/
theorem adminBarTier_spec (p : ℚ) :
    adminRiskBarColor p = adminColorOf (adminBarTier p) := by
  unfold adminRiskBarColor adminBarTier
  split <;> [rfl; skip]
  split <;> rfl

/-- Modelled from the spec: the decision policy's three-tier
`classification` (spec section 4.5), bucketing `p_cal` by two cut points:
SAFE when `p_cal < c_low`, FRAUD when `p_cal ≥ c_high`, SUSPICIOUS
otherwise.  The engine source (`Fusion_API/app`) is not in the repository
snapshot. -/
def specClassification (cLow cHigh p : ℚ) : Tier :=
  if p < cLow then .SAFE
  else if p ≥ cHigh then .FRAUD
  else .SUSPICIOUS

/-- Modelled from the spec: `binary_decision = p_cal ≥ T` (spec
section 4.5). -/
def binaryDecision (T p : ℚ) : Bool :=
  p ≥ T

/-- Modelled from the spec: the `confidence` scalar
`2 * |p_cal - 0.5|` (spec section 4.5). -/
def confidence (p : ℚ) : ℚ :=
  2 * |p - 1/2|

/-- C1 counterexample: at score 0.35 the admin-panel risk bar shows the
green (SAFE) colour, so its SAFE/SUSPICIOUS boundary is not at 0.30 as the
claim states for every implementation; the 0.30/0.70 banding puts 0.35 in
the SUSPICIOUS tier. -/
theorem C1_admin_boundary_counterexample :
    adminRiskBarColor (7/20) = "bg-green-500" ∧
    specClassification (3/10) (7/10) (7/20) = Tier.SUSPICIOUS := by
  refine ⟨?_, ?_⟩ <;> norm_num [adminRiskBarColor, specClassification]

/-- C1 (amended): with cut points 0.30/0.70 the classification is SAFE
exactly when `p < 0.30`, FRAUD exactly when `p ≥ 0.70`, SUSPICIOUS
otherwise, and the customer-portal colour mapping realises exactly these
boundaries; the admin-panel risk bar instead uses strict boundaries at
0.40 and 0.70 (SAFE exactly when `p ≤ 0.40`, FRAUD exactly when
`p > 0.70`). -/
theorem C1_tier_banding (p : ℚ) :
    (specClassification (3/10) (7/10) p = Tier.SAFE ↔ p < 3/10) ∧
    (specClassification (3/10) (7/10) p = Tier.FRAUD ↔ p ≥ 7/10) ∧
    (specClassification (3/10) (7/10) p = Tier.SUSPICIOUS ↔
      3/10 ≤ p ∧ p < 7/10) ∧
    portalTier p = specClassification (3/10) (7/10) p ∧
    (adminBarTier p = Tier.SAFE ↔ p ≤ 4/10) ∧
    (adminBarTier p = Tier.FRAUD ↔ 7/10 < p) := by
  unfold specClassification portalTier adminBarTier
  split_ifs <;> simp_all <;> linarith

/-- C2: with fixed cut points `cLow < cHigh`, the tier classification is
monotone: if `p1 ≤ p2` and `p1` classifies as FRAUD then `p2` does not
classify as SAFE, both for the spec decision policy and for the
customer-portal risk-colour mapping. -/
theorem C2_classification_monotone (cLow cHigh p1 p2 : ℚ)
    (hcut : cLow < cHigh) (h12 : p1 ≤ p2) :
    (specClassification cLow cHigh p1 = Tier.FRAUD →
      specClassification cLow cHigh p2 ≠ Tier.SAFE) ∧
    (portalTier p1 = Tier.FRAUD → portalTier p2 ≠ Tier.SAFE) := by
  unfold specClassification portalTier
  split_ifs <;> simp_all <;> linarith

/-- C2 witness: instantiated at `cLow = 0.3`, `cHigh = 0.7`, `p1 = 0.8`,
`p2 = 0.9`. -/
theorem C2_classification_monotone_witness :
    (specClassification (3/10) (7/10) (4/5) = Tier.FRAUD →
      specClassification (3/10) (7/10) (9/10) ≠ Tier.SAFE) ∧
    (portalTier (4/5) = Tier.FRAUD → portalTier (9/10) ≠ Tier.SAFE) :=
  C2_classification_monotone (3/10) (7/10) (4/5) (9/10) (by norm_num)
    (by norm_num)

/-- C3 counterexample: at risk score 0.40 the admin-panel risk bar shows
the green (SAFE) colour, so not every implementation of the banding
places 0.40 in the SUSPICIOUS tier. -/
theorem C3_admin_midpoint_counterexample :
    adminRiskBarColor (2/5) = "bg-green-500" ∧
    adminBarTier (2/5) = Tier.SAFE := by
  refine ⟨?_, ?_⟩ <;> norm_num [adminRiskBarColor, adminBarTier]

/-- C3 (amended): for `p_cal = 0.40`, `T = 0.40`, `c_low = 0.30`,
`c_high = 0.70`, the decision policy yields `binary_decision = true` and
classification SUSPICIOUS, and the customer-portal banding shows 0.40 as
SUSPICIOUS (yellow); the admin-panel risk bar, however, shows 0.40 as
green (its SAFE band). -/
theorem C3_midpoint_scenario :
    binaryDecision (2/5) (2/5) = true ∧
    specClassification (3/10) (7/10) (2/5) = Tier.SUSPICIOUS ∧
    portalTier (2/5) = Tier.SUSPICIOUS ∧
    getRiskScoreColor (2/5) = "text-yellow-600" ∧
    adminRiskBarColor (2/5) = "bg-green-500" := by
  refine ⟨?_, ?_, ?_, ?_, ?_⟩ <;>
    norm_num [binaryDecision, specClassification, portalTier,
      getRiskScoreColor, adminRiskBarColor]

/-- C4: for `p_cal = 0.95` with bands 0.30/0.70 the classification is
FRAUD (spec policy and customer-portal mapping agree) and the confidence
scalar `2 * |p_cal - 0.5| = 0.9` is at least 0.9. -/
theorem C4_high_probability_fraud :
    specClassification (3/10) (7/10) (19/20) = Tier.FRAUD ∧
    portalTier (19/20) = Tier.FRAUD ∧
    getRiskScoreColor (19/20) = "text-red-600" ∧
    confidence (19/20) ≥ 9/10 := by
  refine ⟨?_, ?_, ?_, ?_⟩ <;>
    norm_num [specClassification, portalTier, getRiskScoreColor,
      confidence, abs_of_nonneg]

/-! ## The ensemble inference engine

The engine itself (`Fusion_API/app/main.py`, `inference.py`,
`preprocessing.py`, `model_loader.py`) is not in the repository snapshot —
only its run scripts and README are.  The definitions below are modelled
from the spec (sections 3, 4.1, 4.3-4.5, 6, 7). -/

/-- Modelled from the spec: `SchemaViolation{missing, extra, nonNumeric}`
enumerating every offending field (section 4.1). -/
structure SchemaViolation where
  missing : List String
  extra : List String
  nonNumeric : List String
deriving DecidableEq, Repr

/-- Modelled from the spec: one value of the raw key-to-value input map —
either a finite number or something non-numeric (section 4.1). -/
inductive InputValue
  | num (value : ℚ)
  | nonNum
deriving DecidableEq, Repr

/-- A raw input map: an association list from keys to values. -/
abbrev InputMap := List (String × InputValue)

/-- The first value bound to key `k` in the map, if any. -/
def lookupKey (m : InputMap) (k : String) : Option InputValue :=
  (m.find? (fun kv => kv.1 == k)).map (fun kv => kv.2)

/-- The schema keys that are absent from the input map. -/
def missingKeys (schema : List String) (m : InputMap) : List String :=
  schema.filter (fun k => (lookupKey m k).isNone)

/-- The input-map keys that are not in the schema. -/
def extraKeys (schema : List String) (m : InputMap) : List String :=
  (m.map (fun kv => kv.1)).filter (fun k => ! schema.contains k)

/-- The input-map keys bound to a non-numeric value. -/
def nonNumericKeys (m : InputMap) : List String :=
  (m.filter (fun kv => kv.2 == InputValue.nonNum)).map (fun kv => kv.1)

/-- The numeric content of an input value (0 for non-numeric; only read
after validation has ruled non-numeric values out). -/
def numValue : InputValue → ℚ
  | .num q => q
  | .nonNum => 0

/-- Modelled from the spec: the Feature Contract Validator (section 4.1) —
every schema key present, every value numeric, no extra keys; on success a
dense vector in the schema's canonical order, otherwise a
`SchemaViolation` enumerating every offending field. -/
def validate (schema : List String) (m : InputMap) :
    Except SchemaViolation (List ℚ) :=
  let miss := missingKeys schema m
  let ext := extraKeys schema m
  let nn := nonNumericKeys m
  if miss = [] ∧ ext = [] ∧ nn = [] then
    .ok (schema.map (fun k => numValue ((lookupKey m k).getD (.num 0))))
  else
    .error ⟨miss, ext, nn⟩

/-- Modelled from the spec: the per-request `EnsembleResult` (section 3):
raw and calibrated probability, threshold used, binary decision, tier
classification and confidence (wall-clock timing is omitted, as it is not
representable in the embedding). -/
structure EnsembleResult where
  pRaw : ℚ
  pCal : ℚ
  thresholdUsed : ℚ
  binary_decision : Bool
  classification : Tier
  confidenceScore : ℚ
deriving DecidableEq, Repr

/-- Modelled from the spec: the request-level error taxonomy relevant to
`predict` (section 7). -/
inductive PredictError
  | schemaViolation (v : SchemaViolation)
  | quorumNotMet
deriving DecidableEq, Repr

/-- Modelled from the spec: the versioned, read-only `ModelBundle`
(section 3): the feature schema, the base scorers in canonical order (a
scorer returning `none` is the `BaseScoreUnavailable` marker), per-slot
fallback values for imputation, the quorum, the meta-learner and
calibrator as fixed pure functions, the operating threshold and the tier
cut points. -/
structure ModelBundle where
  schema : List String
  models : List (List ℚ → Option ℚ)
  fallbacks : List ℚ
  minQuorum : Nat
  meta : List ℚ → ℚ
  calibrator : ℚ → ℚ
  threshold : ℚ
  cLow : ℚ
  cHigh : ℚ

/-- Modelled from the spec: the Base Model Registry run (section 4.3) —
every model invoked independently on the validated vector; a failing
model contributes its `none` marker and does not abort the others. -/
def runRegistry (b : ModelBundle) (vec : List ℚ) : List (Option ℚ) :=
  b.models.map (fun f => f vec)

/-- The number of base models that produced a score. -/
def quorumCount (outcomes : List (Option ℚ)) : Nat :=
  (outcomes.filterMap id).length

/-- Modelled from the spec: imputation of missing FusionVector slots with
the bundle's per-slot fallback values (section 4.4). -/
def imputeSlots (outcomes : List (Option ℚ)) (fallbacks : List ℚ) :
    List ℚ :=
  List.zipWith (fun o fb => o.getD fb) outcomes fallbacks

/-- Modelled from the spec: fusion, calibration and decision policy on a
complete FusionVector (sections 4.4-4.5). -/
def scoreFusionVector (b : ModelBundle) (fusion : List ℚ) :
    EnsembleResult :=
  let pRaw := b.meta fusion
  let pCal := b.calibrator pRaw
  { pRaw := pRaw
    pCal := pCal
    thresholdUsed := b.threshold
    binary_decision := binaryDecision b.threshold pCal
    classification := specClassification b.cLow b.cHigh pCal
    confidenceScore := confidence pCal }

/-- Modelled from the spec: the quorum gate of the orchestrator
(section 4.3) followed by fusion (section 4.4). -/
def decideFromOutcomes (b : ModelBundle) (outcomes : List (Option ℚ)) :
    Except PredictError EnsembleResult :=
  if quorumCount outcomes < b.minQuorum then .error .quorumNotMet
  else .ok (scoreFusionVector b (imputeSlots outcomes b.fallbacks))

/-- Modelled from the spec: `predict` (section 6) — validate the raw map,
run all base models, apply the quorum gate, fuse, calibrate and decide. -/
def predict (b : ModelBundle) (m : InputMap) :
    Except PredictError EnsembleResult :=
  match validate b.schema m with
  | .error v => .error (.schemaViolation v)
  | .ok vec => decideFromOutcomes b (runRegistry b vec)

/-- Modelled from the spec: `predictBatch` (section 6) — one entry per
item, each item processed independently. -/
def predictBatch (b : ModelBundle) (ms : List InputMap) :
    List (Except PredictError EnsembleResult) :=
  ms.map (predict b)

/-- A small concrete bundle used to witness the engine theorems: two
schema keys, three base scorers (the second always fails), unit
fallbacks, quorum 2, a head-projection meta-learner and the identity
calibrator. -/
def demoBundle : ModelBundle where
  schema := ["feature_0", "feature_1"]
  models := [fun v => v.head?, fun _ => none, fun v => (v.drop 1).head?]
  fallbacks := [1, 1, 1]
  minQuorum := 2
  meta := fun xs => xs.headD 0
  calibrator := fun p => p
  threshold := 2/5
  cLow := 3/10
  cHigh := 7/10

/-- A complete demo input map for `demoBundle`. -/
def demoInput : InputMap :=
  [("feature_0", .num 1), ("feature_1", .num 0)]

/-- A demo input map that is missing the schema key `feature_1`. -/
def demoMissingInput : InputMap :=
  [("feature_0", .num 1)]

/-- C5: `predict` is a pure function of the input map and the bundle: two
runs on the identical input and bundle produce the identical result
(there is no mutable shared state and no randomness in the embedding). -/
theorem C5_predict_deterministic (b : ModelBundle) (m : InputMap)
    (r1 r2 : Except PredictError EnsembleResult)
    (h1 : predict b m = r1) (h2 : predict b m = r2) : r1 = r2 :=
  h1.symm.trans h2

/-- C5 witness: two runs of `predict` on the concrete demo bundle and
input coincide. -/
theorem C5_predict_deterministic_witness :
    predict demoBundle demoInput = predict demoBundle demoInput :=
  C5_predict_deterministic demoBundle demoInput
    (predict demoBundle demoInput) (predict demoBundle demoInput) rfl rfl

/-- C6: when a schema key is absent from the input map, `validate` fails
with a `SchemaViolation` whose `missing` list names that key and every
other absent key, and it never returns a vector (so no score is ever
computed with a default substituted for the missing feature). -/
theorem C6_missing_feature (schema : List String) (m : InputMap)
    (k : String) (hk : k ∈ schema) (hmiss : lookupKey m k = none) :
    k ∈ missingKeys schema m ∧
    (∀ k', k' ∈ schema → lookupKey m k' = none →
      k' ∈ missingKeys schema m) ∧
    validate schema m =
      .error ⟨missingKeys schema m, extraKeys schema m,
        nonNumericKeys m⟩ ∧
    ∀ vec, validate schema m ≠ .ok vec := by
  have hmem : k ∈ missingKeys schema m := by
    simp [missingKeys, List.mem_filter, hk, hmiss]
  have hne : ¬ (missingKeys schema m = [] ∧ extraKeys schema m = [] ∧
      nonNumericKeys m = []) := by
    rintro ⟨h, -, -⟩
    rw [h] at hmem
    exact List.not_mem_nil k hmem
  have hval : validate schema m =
      .error ⟨missingKeys schema m, extraKeys schema m,
        nonNumericKeys m⟩ := by
    unfold validate
    rw [if_neg hne]
  refine ⟨hmem, ?_, hval, ?_⟩
  · intro k' h1 h2
    simp [missingKeys, List.mem_filter, h1, h2]
  · intro vec h
    rw [hval] at h
    exact Except.noConfusion h

/-- C6 witness: for the demo schema and an input missing `feature_1`,
the missing key is reported. -/
theorem C6_missing_feature_witness :
    "feature_1" ∈ (["feature_0", "feature_1"] : List String) ∧
    lookupKey demoMissingInput "feature_1" = none ∧
    "feature_1" ∈ missingKeys ["feature_0", "feature_1"]
      demoMissingInput :=
  ⟨by decide, by decide,
    (C6_missing_feature ["feature_0", "feature_1"] demoMissingInput
      "feature_1" (by decide) (by decide)).1⟩

/-- C7: `predictBatch` returns one entry per item, index-aligned: its
length equals the input length and entry `i` is exactly `predict` of
item `i`, so each item is independently a success or that item's own
error, one item's failure cannot affect another item's entry, and the
batch call itself always returns a list. -/
theorem C7_batch_alignment (b : ModelBundle) (ms : List InputMap) :
    (predictBatch b ms).length = ms.length ∧
    ∀ i : Nat, (predictBatch b ms)[i]? = (ms[i]?).map (predict b) := by
  refine ⟨by simp [predictBatch], fun i => ?_⟩
  simp [predictBatch]

/-- C8: the quorum policy.  The registry run has one outcome slot per
model and slot `i` is model `i`'s own outcome (a failing model yields its
`none` marker without aborting the others); when the number of successful
base scores is below the quorum the request fails with `QuorumNotMet`,
and when it meets the quorum the request succeeds on the FusionVector
whose missing slots are imputed with the bundle's fallback values. -/
theorem C8_quorum_policy (b : ModelBundle) (vec : List ℚ) (k : Nat)
    (hk : quorumCount (runRegistry b vec) = k) :
    ((runRegistry b vec).length = b.models.length ∧
      ∀ i : Nat, (runRegistry b vec)[i]? =
        (b.models[i]?).map (fun f => f vec)) ∧
    (k < b.minQuorum →
      decideFromOutcomes b (runRegistry b vec) =
        .error .quorumNotMet) ∧
    (b.minQuorum ≤ k →
      decideFromOutcomes b (runRegistry b vec) =
        .ok (scoreFusionVector b
          (imputeSlots (runRegistry b vec) b.fallbacks))) := by
  subst hk
  refine ⟨⟨by simp [runRegistry], fun i => by simp [runRegistry]⟩,
    fun h => ?_, fun h => ?_⟩
  · simp [decideFromOutcomes, h]
  · simp [decideFromOutcomes, Nat.not_lt.mpr h]

/-- C8 witness: on `demoBundle` (quorum 2), the empty vector makes all
three scorers fail (0 successes, request fails with `QuorumNotMet`),
while the vector `[1, 0]` gives 2 successes and the request succeeds on
the imputed FusionVector. -/
theorem C8_quorum_policy_witness :
    quorumCount (runRegistry demoBundle []) = 0 ∧
    decideFromOutcomes demoBundle (runRegistry demoBundle []) =
      .error .quorumNotMet ∧
    quorumCount (runRegistry demoBundle [1, 0]) = 2 ∧
    decideFromOutcomes demoBundle (runRegistry demoBundle [1, 0]) =
      .ok (scoreFusionVector demoBundle
        (imputeSlots (runRegistry demoBundle [1, 0])
          demoBundle.fallbacks)) :=
  ⟨rfl,
    (C8_quorum_policy demoBundle [] 0 rfl).2.1 (by decide),
    rfl,
    (C8_quorum_policy demoBundle [1, 0] 2 rfl).2.2 (by decide)⟩

/-! ## Customer-portal card utilities -/

/-- The numeric value of a decimal digit character (the embedding of
`parseInt(digits[i], 10)` on a digit character). -/
def digitVal (c : Char) : Nat :=
  c.toNat - '0'.toNat

/-- The digit characters of a string, in order (the embedding of
`cardNumber.replace(/\D/g, '')`). -/
def digitsOf (s : List Char) : List Char :=
  s.filter Char.isDigit

/-- The Luhn doubling step of `validateCardNumber` (`validation.ts`
lines 26-31): double the digit and subtract 9 when the result
exceeds 9. -/
def luhnDouble (d : Nat) : Nat :=
  if d * 2 > 9 then d * 2 - 9 else d * 2

/-- The right-to-left summation loop of `validateCardNumber`
(`validation.ts` lines 19-35): the reversed digit list is processed with
`isEven` starting `false` and toggling each step; a digit seen while
`isEven` is true is doubled. -/
def luhnLoop : List Nat → Bool → Nat
  | [], _ => 0
  | d :: rest, isEv =>
      (if isEv then luhnDouble d else d) + luhnLoop rest (!isEv)

/-- `validateCardNumber` from
`src/frontend/customer-portal/src/lib/utils/validation.ts` (lines 9-38):
strip non-digits, require 13 to 19 digits, then accept exactly when the
Luhn sum is divisible by 10. -/
def validateCardNumber (s : List Char) : Bool :=
  let ds := (digitsOf s).map digitVal
  if ds.length < 13 || ds.length > 19 then false
  else luhnLoop ds.reverse false % 10 == 0

/-- The claim's description of the Luhn sum: counting positions from the
rightmost digit (index 0), every digit at an odd index — every second
digit starting from the rightmost digit's neighbour — is doubled, with 9
subtracted from a doubled digit exceeding 9. -/
def luhnSpecFrom : List Nat → Nat → Nat
  | [], _ => 0
  | d :: rest, i =>
      (if i % 2 = 1 then luhnDouble d else d) + luhnSpecFrom rest (i + 1)

/-- The claim's Luhn sum of a digit list, rightmost digit at index 0. -/
def luhnSpecSum (ds : List Nat) : Nat :=
  luhnSpecFrom ds.reverse 0

/-- The claim's acceptance condition for a card-number string. -/
def luhnSpecAccepts (s : List Char) : Prop :=
  13 ≤ (digitsOf s).length ∧ (digitsOf s).length ≤ 19 ∧
    luhnSpecSum ((digitsOf s).map digitVal) % 10 = 0

/-- The code's toggling loop agrees with the index-parity description:
starting the loop with the flag of index `i` computes the
position-indexed sum from `i`. -/
theorem luhnSpecFrom_eq_luhnLoop (l : List Nat) :
    ∀ i : Nat, luhnSpecFrom l i = luhnLoop l (decide (i % 2 = 1)) := by
  induction l with
  | nil => intro i; rfl
  | cons d rest ih =>
      intro i
      have hflip : (!decide (i % 2 = 1)) = decide ((i + 1) % 2 = 1) := by
        rcases Nat.mod_two_eq_zero_or_one i with h | h <;>
          simp [Nat.add_mod, h]
      simp only [luhnSpecFrom, luhnLoop, ih (i + 1), hflip]
      rcases Nat.mod_two_eq_zero_or_one i with h | h <;> simp [h]

/-- C9: `validateCardNumber` accepts a string exactly when its digit
sequence has between 13 and 19 digits and satisfies the Luhn checksum as
described: doubling every second digit starting from the rightmost
digit's neighbour, subtracting 9 from any doubled digit exceeding 9, and
requiring the total to be divisible by 10. -/
theorem C9_validateCardNumber_iff_luhn (s : List Char) :
    validateCardNumber s = true ↔ luhnSpecAccepts s := by
  unfold validateCardNumber luhnSpecAccepts luhnSpecSum
  have h0 : luhnSpecFrom ((digitsOf s).map digitVal).reverse 0 =
      luhnLoop ((digitsOf s).map digitVal).reverse false := by
    rw [luhnSpecFrom_eq_luhnLoop]
    rfl
  rw [h0]
  by_cases h13 : ((digitsOf s).map digitVal).length < 13
  · simp only [List.length_map] at h13 ⊢
    simp [h13]
  · by_cases h19 : ((digitsOf s).map digitVal).length > 19
    · simp only [List.length_map] at h19 ⊢
      simp [h19, Nat.not_lt.mp h13]
    · simp only [List.length_map] at h13 h19 ⊢
      simp [h13, h19, Nat.not_lt.mp h13, Nat.not_lt.mp h19]

/-- The bullet character `maskCardNumber` substitutes for digits. -/
def bullet : Char :=
  '•'

/-- Grouping into chunks of at most four characters from the left (the
embedding of `combined.match(/.{1,4}/g)`). -/
def chunksOf4 : List Char → List (List Char)
  | [] => []
  | a :: b :: c :: d :: e :: rest => [a, b, c, d] :: chunksOf4 (e :: rest)
  | l => [l]

/-- The masked rendering determined by the digit count `n` and the last
four digits alone: fewer than four digits give only bullets, otherwise
`n - 4` bullets followed by the last four digits, grouped in fours with
spaces (with the `|| combined` fallback of the source when the regexp
match is empty). -/
def maskRender (n : Nat) (lastFour : List Char) : List Char :=
  if n < 4 then List.replicate n bullet
  else
    let combined := List.replicate (n - 4) bullet ++ lastFour
    match chunksOf4 combined with
    | [] => combined
    | chunks => List.intercalate [' '] chunks

/-- `maskCardNumber` from
`src/frontend/customer-portal/src/lib/utils/formatters.ts` (lines 74-88):
strip non-digits; fewer than four digits become that many bullets;
otherwise all but the last four digits become bullets and the result is
grouped in fours with spaces. -/
def maskCardNumber (s : List Char) : List Char :=
  let digits := digitsOf s
  if digits.length < 4 then List.replicate digits.length bullet
  else
    let lastFour := digits.drop (digits.length - 4)
    let maskedLength := digits.length - 4
    let masked := List.replicate maskedLength bullet
    let combined := masked ++ lastFour
    match chunksOf4 combined with
    | [] => combined
    | chunks => List.intercalate [' '] chunks

/-- `maskCardNumber` factors through the digit count and the trailing
four digits alone. -/
theorem maskCardNumber_eq_maskRender (s : List Char) :
    maskCardNumber s =
      maskRender (digitsOf s).length
        ((digitsOf s).drop ((digitsOf s).length - 4)) := by
  unfold maskCardNumber maskRender
  rfl

/-- C10: `maskCardNumber` leaks at most the last four digits: its output
is a function of the digit count and the trailing four digits only, so
any two inputs with equally many digits and the same last four digits
(no condition on the last four when there are fewer than four digits)
produce identical output; moreover an input with fewer than four digits
yields only bullets, and otherwise every digit before the last four is
rendered as a bullet. -/
theorem C10_mask_leaks_last_four_only (s1 s2 : List Char)
    (hlen : (digitsOf s1).length = (digitsOf s2).length)
    (hlast : 4 ≤ (digitsOf s1).length →
      (digitsOf s1).drop ((digitsOf s1).length - 4) =
        (digitsOf s2).drop ((digitsOf s2).length - 4)) :
    maskCardNumber s1 = maskCardNumber s2 ∧
    ((digitsOf s1).length < 4 →
      maskCardNumber s1 = List.replicate (digitsOf s1).length bullet) ∧
    (4 ≤ (digitsOf s1).length →
      maskCardNumber s1 =
        maskRender (digitsOf s1).length
          ((digitsOf s1).drop ((digitsOf s1).length - 4))) := by
  refine ⟨?_, fun hlt => ?_, fun hge => maskCardNumber_eq_maskRender s1⟩
  · rw [maskCardNumber_eq_maskRender s1, maskCardNumber_eq_maskRender s2]
    by_cases h4 : 4 ≤ (digitsOf s1).length
    · rw [hlast h4, hlen]
    · have h1 : (digitsOf s1).length < 4 := Nat.not_le.mp h4
      have h2 : (digitsOf s2).length < 4 := hlen ▸ h1
      unfold maskRender
      rw [if_pos h1, if_pos h2, hlen]
  · rw [maskCardNumber_eq_maskRender s1]
    unfold maskRender
    rw [if_pos hlt]

/-- C10 witness: two card numbers with sixteen digits each and the same
last four digits mask identically, and a three-digit input masks to
three bullets. -/
theorem C10_mask_leaks_last_four_only_witness :
    (digitsOf ("1234 5678 9012 3456".toList)).length =
      (digitsOf ("9999-8888-7777-3456".toList)).length ∧
    maskCardNumber ("1234 5678 9012 3456".toList) =
      maskCardNumber ("9999-8888-7777-3456".toList) ∧
    maskCardNumber ("1 2 3".toList) =
      List.replicate (digitsOf ("1 2 3".toList)).length bullet :=
  ⟨by decide,
    (C10_mask_leaks_last_four_only ("1234 5678 9012 3456".toList)
      ("9999-8888-7777-3456".toList) (by decide) (fun _ => by decide)).1,
    (C10_mask_leaks_last_four_only ("1 2 3".toList) ("1 2 3".toList)
      (by decide) (fun _ => by decide)).2.1 (by decide)⟩

end FraudShield
